import Mathlib

/-!
Shallow embedding of `googlemap_poi_extractor.py` (POI conflation framework,
Google Maps extractor).  Coordinates and box dimensions are modelled as
rationals; raw API hits are records of optional fields (a `none` models a
missing JSON key, whose access in Python raises `KeyError`); the external
search service is modelled as a deterministic oracle indexed by the number
of API calls made so far; the incrementally rewritten output file is
modelled as the list of features it contains.  Helper functions imported
from `helper_functions.py` (a file that is not part of this source tree)
are modelled from the spec where their behaviour matters and noted as such.
-/

/-- Decidable equality for `Except`, used to evaluate concrete runs of the
formatters below. -/
instance exceptDecEq (ε α : Type) [DecidableEq ε] [DecidableEq α] :
    DecidableEq (Except ε α) := fun a b =>
  match a, b with
  | Except.error e1, Except.error e2 =>
    if h : e1 = e2 then isTrue (by rw [h]) else isFalse (fun hc => h (Except.error.inj hc))
  | Except.ok x, Except.ok y =>
    if h : x = y then isTrue (by rw [h]) else isFalse (fun hc => h (Except.ok.inj hc))
  | Except.error _, Except.ok _ => isFalse (fun hc => Except.noConfusion hc)
  | Except.ok _, Except.error _ => isFalse (fun hc => Except.noConfusion hc)

/-- Raw `geometry.bounds` sub-object of a Google hit (`northeast`/`southwest`
corners), as read by `format_query_result` (source lines 87-91). -/
structure BoundsRec where
  ne_lat : ℚ
  ne_lng : ℚ
  sw_lat : ℚ
  sw_lng : ℚ
deriving DecidableEq

/-- One raw hit of the places API.  Every field is optional: `none` models a
missing key in the JSON object; accessing a `none` required field models the
`KeyError` the Python code would raise. -/
structure RawHit where
  location : Option (ℚ × ℚ)
  bounds : Option BoundsRec
  vicinity : Option String
  name : Option String
  types : Option (List String)
  place_id : Option String
deriving DecidableEq

/-- Geometry part of a formatted POI feature (source lines 87-101). -/
structure Geometry where
  location : ℚ × ℚ
  bound : Option (List (ℚ × ℚ))
deriving DecidableEq

/-- One formatted POI feature, the dictionary built at source lines 108-118.
The address is `none` when `vicinity` was absent (the Python code stores a
NaN); the name is `none` when the hit had no name. -/
structure Feat where
  geometry : Geometry
  address : Option String
  name : Option String
  place_type : List String
  source : String
  requires_verification : String
  id : String
  extraction_date : String
deriving DecidableEq

/-- Modelled from the spec: `within_boundary_area` is imported from
`helper_functions.py`, which is absent from this source tree.  Spec section
4.1: containment test, minimum inclusive and maximum inclusive, with the
argument order used at source line 84. -/
def within_boundary_area (lat lng min_lat max_lat min_lng max_lng : ℚ) : Bool :=
  decide (min_lat ≤ lat) && decide (lat ≤ max_lat) &&
    decide (min_lng ≤ lng) && decide (lng ≤ max_lng)

/-- Source lines 24-32: the hit's name, or a NaN (modelled as `none`) when the
name key is missing. -/
def extract_placename (h : RawHit) : Option String :=
  h.name

/-- The feature dictionary built at source lines 87-118 for one in-bounds hit
whose `types` and `place_id` keys are present.  `seg` models the imported
`segment_address` helper and `today` the imported `extract_date` helper. -/
def poiDict (seg : String → String) (today : String) (lat lng : ℚ) (h : RawHit)
    (ts : List String) (pid : String) : Feat :=
  { geometry :=
      match h.bounds with
      | some b =>
          { location := (lat, lng)
            bound := some [(b.sw_lat, b.ne_lng), (b.ne_lat, b.ne_lng),
                           (b.ne_lat, b.sw_lng), (b.sw_lat, b.sw_lng)] }
      | none => { location := (lat, lng), bound := none }
    address := h.vicinity.map seg
    name := extract_placename h
    place_type := ts
    source := "GoogleMap"
    requires_verification := "No"
    id := pid
    extraction_date := today }

/-- Source lines 74-122: formats the raw result list into a list of features.
The four box coordinates are the module-level globals `min_lat`, `max_lat`,
`min_lng`, `max_lng` (the function body reads them as free variables at line
84).  A hit whose `geometry.location` key is missing raises a `KeyError`
before anything else of the batch is decided; a hit out of bounds is skipped;
a surviving hit whose `types` or `place_id` key is missing also raises a
`KeyError`.  An `Except.error` models the uncaught `KeyError`. -/
def format_query_result (min_lat max_lat min_lng max_lng : ℚ) (seg : String → String)
    (today : String) : List RawHit → Except Unit (List Feat)
  | [] => Except.ok []
  | h :: hs =>
    match h.location with
    | none => Except.error ()
    | some ll =>
      if within_boundary_area ll.1 ll.2 min_lat max_lat min_lng max_lng then
        match h.types with
        | none => Except.error ()
        | some ts =>
          match h.place_id with
          | none => Except.error ()
          | some pid =>
            (format_query_result min_lat max_lat min_lng max_lng seg today hs).map
              (fun rest => poiDict seg today ll.1 ll.2 h ts pid :: rest)
      else
        format_query_result min_lat max_lat min_lng max_lng seg today hs

/-- A raw hit has all the fields whose absence would raise a `KeyError` in
`format_query_result` (location, types, place_id). -/
def requiredFieldsPresent (h : RawHit) : Bool :=
  h.location.isSome && h.types.isSome && h.place_id.isSome

/-- Status of one API response as compared at source lines 163-167: `OK`,
`ZERO_RESULTS`, or any other status string (e.g. `OVER_QUERY_LIMIT`), which
the code only ever treats as "pause and retry". -/
inductive Status where
  | ok
  | zero_results
  | over_limit
deriving DecidableEq

/-- Outcome of one `extract_poi` call as observed by `variable_bounding_box`:
either a `requests.exceptions.ConnectionError` (source line 182) or a JSON
response with a status and a result list. -/
inductive Outcome where
  | conn_error
  | resp (status : Status) (results : List RawHit)
deriving DecidableEq

/-- One coordinate tuple of the list produced by `divide_bounding_box`, with
the component roles used at source lines 130-133 and 160-161:
index 0 = min_lat, 1 = min_lng, 2 = max_lat, 3 = max_lng. -/
structure Tile where
  c0 : ℚ
  c1 : ℚ
  c2 : ℚ
  c3 : ℚ
deriving DecidableEq

/-- Run state of the extractor: the module-level globals `num_queries` (line
142) and `box_dimensions` (line 247), the contents of the output file
(`features`), plus an instrumentation of the environment: `calls` counts the
`extract_poi` invocations made so far (it indexes the oracle) and `sleeps`
records the duration, in seconds, of every `time.sleep` call. -/
structure St where
  num_queries : ℕ
  box_dimensions : List ℚ
  features : List Feat
  calls : ℕ
  sleeps : List ℚ
deriving DecidableEq

/-- Result of a run of `variable_bounding_box`: normal completion, the
`ValueError` of source line 175, an uncaught `KeyError` escaping
`format_query_result`, or exhaustion of the step budget of the model. -/
inductive RunRes where
  | outOfFuel
  | valueError
  | keyError
  | done (st : St)
deriving DecidableEq

/-- The branch selected at source lines 167-176 for a response that passed
the `OK`-or-`ZERO_RESULTS` test of line 163. -/
inductive BranchAct where
  | record
  | recurse
  | unexpected
deriving DecidableEq

/-- Source lines 167-176: dispatch on the result count and the current query
box dimension.  `record` appends `querybox_dim` to `box_dimensions`,
`recurse` halves the dimension and recurses, `unexpected` raises the
`ValueError` of line 175. -/
def vbbBranch (status : Status) (nres : ℕ) (querybox_dim : ℚ) : BranchAct :=
  if status = Status.zero_results ∨ nres < 20 then BranchAct.record
  else if 20 ≤ nres ∧ 5/2 ≤ querybox_dim / 2 then BranchAct.recurse
  else if 20 ≤ nres ∧ querybox_dim / 2 < 5/2 then BranchAct.record
  else BranchAct.unexpected

/-- Source lines 125-133: keep a coordinate tuple iff at least one of its
four corners lies within some polygon of the shapefile.  A polygon is
modelled as its membership test, taking a point as `Point(x, y)` does:
x first (a longitude component), then y (a latitude component). -/
def pixelise_region (coordinates : List Tile) (shapefile : List (ℚ → ℚ → Bool)) : List Tile :=
  coordinates.filter fun c =>
    shapefile.any (fun p => p c.c1 c.c0) || shapefile.any (fun p => p c.c3 c.c0) ||
      shapefile.any (fun p => p c.c1 c.c2) || shapefile.any (fun p => p c.c3 c.c2)

/-- Modelled from the spec: `divide_bounding_box` is imported from
`helper_functions.py`, which is absent from this source tree.  Spec section
4.1 (`tessellate`): a grid of square tiles of the given edge length covering
the box, the last row and column possibly extending past the far edge.  The
model works in a planar coordinate system in which one coordinate unit is
one metre, eliding the metres-to-degrees conversion the spec leaves to a
local approximation. -/
def divide_bounding_box (max_lat min_lat max_lng min_lng querybox_dim : ℚ) : List Tile :=
  ((List.range (Nat.ceil ((max_lat - min_lat) / querybox_dim))).map (fun i =>
    (List.range (Nat.ceil ((max_lng - min_lng) / querybox_dim))).map (fun j =>
      { c0 := min_lat + i * querybox_dim
        c1 := min_lng + j * querybox_dim
        c2 := min_lat + (i + 1) * querybox_dim
        c3 := min_lng + (j + 1) * querybox_dim }))).flatten

/-- Environment of a run: the external collaborators of
`variable_bounding_box` and the module-level globals it reads.  The `oracle`
gives the outcome of the n-th `extract_poi` call, for the tile it queries;
`divide` is the imported `divide_bounding_box` helper; `shapefile_tampines`,
`g_min_lat`, `g_max_lat`, `g_min_lng`, `g_max_lng`, `seg`, `today` and
`wait_time` model the globals `shapefile_tampines`, `min_lat`, `max_lat`,
`min_lng`, `max_lng`, `segment_address`, `extract_date` and `wait_time`. -/
structure Env where
  oracle : ℕ → Tile → Outcome
  divide : ℚ → ℚ → ℚ → ℚ → ℚ → List Tile
  shapefile_tampines : List (ℚ → ℚ → Bool)
  g_min_lat : ℚ
  g_max_lat : ℚ
  g_min_lng : ℚ
  g_max_lng : ℚ
  seg : String → String
  today : String
  wait_time : ℚ

/-- Source lines 157-184: the `while not_successful` loop for one tile.  A
connection error or a status that is neither `OK` nor `ZERO_RESULTS` sleeps
`wait_time * 60` seconds and retries the same tile; an `OK`/`ZERO_RESULTS`
response ends the loop after a one-second pacing sleep.  `none` means the
loop was still retrying when the fuel ran out. -/
def retryLoop (E : Env) (t : Tile) : ℕ → St → Option (Status × List RawHit × St)
  | 0, _ => none
  | fuel + 1, st =>
    match E.oracle st.calls t with
    | Outcome.conn_error =>
        retryLoop E t fuel
          { st with calls := st.calls + 1, sleeps := st.sleeps ++ [E.wait_time * 60] }
    | Outcome.resp status results =>
        if status = Status.ok ∨ status = Status.zero_results then
          some (status, results,
            { st with calls := st.calls + 1, sleeps := st.sleeps ++ [1] })
        else
          retryLoop E t fuel
            { st with calls := st.calls + 1, sleeps := st.sleeps ++ [E.wait_time * 60] }

/-- Sequencing of run results: continue with `f` on normal completion,
propagate an abnormal result unchanged. -/
def RunRes.bind (r : RunRes) (f : St → RunRes) : RunRes :=
  match r with
  | RunRes.done st => f st
  | other => other

/-- Source lines 186-207: the post-loop tail of one tile's iteration.  Unless
the resolving status was `ZERO_RESULTS` (line 188) or the result list is
empty (lines 191 and 206), the formatted results of the resolving response
are appended to the output file; an uncaught `KeyError` of the formatting
aborts the run. -/
def tileEmit (E : Env) (status : Status) (results : List RawHit) (st : St) : RunRes :=
  if status = Status.zero_results then RunRes.done st
  else if results.isEmpty then RunRes.done st
  else
    match format_query_result E.g_min_lat E.g_max_lat E.g_min_lng E.g_max_lng
        E.seg E.today results with
    | Except.error _ => RunRes.keyError
    | Except.ok recs => RunRes.done { st with features := st.features ++ recs }

/-- Source lines 150-207: process a list of tiles at the current
`querybox_dim`.  For each tile: increment `num_queries` (line 155), run the
retry loop of lines 157-184, take the branch of lines 167-176 (the `recurse`
branch re-enters the whole procedure on the tile at half the dimension, with
the tiles produced by `divide_bounding_box` and filtered against the global
`shapefile_tampines`), then run the emission tail of lines 186-207 and move
to the next tile.  Fuel bounds the recursion depth and list length of the
model; all recursive occurrences decrement it. -/
def processTiles (E : Env) (shapefile : List (ℚ → ℚ → Bool)) :
    ℕ → ℚ → List Tile → St → RunRes
  | 0, _, _, _ => RunRes.outOfFuel
  | _ + 1, _, [], st => RunRes.done st
  | fuel + 1, querybox_dim, t :: ts, st =>
    match retryLoop E t (fuel + 1) { st with num_queries := st.num_queries + 1 } with
    | none => RunRes.outOfFuel
    | some (status, results, st1) =>
      RunRes.bind
        (match vbbBranch status results.length querybox_dim with
         | BranchAct.record =>
             RunRes.done { st1 with box_dimensions := st1.box_dimensions ++ [querybox_dim] }
         | BranchAct.recurse =>
             processTiles E shapefile fuel (querybox_dim / 2)
               (pixelise_region (E.divide t.c2 t.c0 t.c3 t.c1 (querybox_dim / 2))
                 E.shapefile_tampines) st1
         | BranchAct.unexpected => RunRes.valueError)
        (fun st2 => RunRes.bind (tileEmit E status results st2)
          (processTiles E shapefile fuel querybox_dim ts))

/-- Source lines 136-148 plus the loop of 150-207: divide the bounding box
at `querybox_dim`, filter the tiles against the global `shapefile_tampines`
(the `shapefile` parameter is only ever forwarded, line 171), and process
the surviving tiles. -/
def variable_bounding_box (E : Env) (fuel : ℕ)
    (max_lat min_lat max_lng min_lng querybox_dim : ℚ)
    (shapefile : List (ℚ → ℚ → Bool)) (st : St) : RunRes :=
  processTiles E shapefile fuel querybox_dim
    (pixelise_region (E.divide max_lat min_lat max_lng min_lng querybox_dim)
      E.shapefile_tampines) st

/-- Source lines 35-71: the bounding-box / centre-point configuration logic
of `extract_poi`.  An argument that was not supplied is `none`.  The three
imported helpers `translate_coordinate`, `identify_centroid` and
`calculate_circle_radius` (from `helper_functions.py`, absent from this
source tree) are taken as parameters.  The result is the (lat, lng, radius)
triple the HTTP query of lines 63-69 would be issued with; an `Except.error`
models the `ValueError` raised at line 47 or 59, before any query is made. -/
def extract_poi (max_lat max_lng min_lat min_lng lat lng : Option ℚ) (l h : ℚ)
    (translate_coordinate : ℚ → ℚ → ℚ → ℚ → ℚ × ℚ × ℚ × ℚ)
    (identify_centroid : ℚ → ℚ → ℚ → ℚ → ℚ × ℚ)
    (calculate_circle_radius : ℚ → ℚ → ℚ → ℚ → ℚ) :
    Except Unit (ℚ × ℚ × ℚ) :=
  if max_lat.isNone && max_lng.isNone && min_lat.isNone && min_lng.isNone &&
      lat.isNone && lng.isNone then
    Except.error ()
  else
    match
      (match lat, lng with
       | some la, some ln =>
           (some (translate_coordinate la ln l h).1,
            some (translate_coordinate la ln l h).2.1,
            some (translate_coordinate la ln l h).2.2.1,
            some (translate_coordinate la ln l h).2.2.2,
            some la, some ln)
       | _, _ =>
         match max_lat, max_lng, min_lat, min_lng with
         | some ma, some mb, some mc, some md =>
             (some ma, some mb, some mc, some md,
              some (identify_centroid ma mb mc md).1,
              some (identify_centroid ma mb mc md).2)
         | _, _, _, _ => (max_lat, max_lng, min_lat, min_lng, lat, lng)) with
    | (some ma, some mb, some _, some _, some la, some ln) =>
        Except.ok (la, ln, calculate_circle_radius ma mb la ln)
    | _ => Except.error ()

/-- Inner recursion of the duplicate-removal pass: keep a feature iff its id
has not been seen before. -/
def remove_duplicate_aux (seen : List String) : List Feat → List Feat
  | [] => []
  | r :: rs =>
    if r.id ∈ seen then remove_duplicate_aux seen rs
    else r :: remove_duplicate_aux (r.id :: seen) rs

/-- Modelled from the spec: `remove_duplicate` is imported from
`helper_functions.py`, which is absent from this source tree.  Spec section
4.5: returns a sequence with exactly one record per distinct id, preserving
the first occurrence's data. -/
def remove_duplicate (features : List Feat) : List Feat :=
  remove_duplicate_aux [] features

/-- The box dimensions recorded by a completed run, `none` if the run did
not complete normally. -/
def resDims : RunRes → Option (List ℚ)
  | RunRes.done st => some st.box_dimensions
  | _ => none

/-- The output-file contents of a completed run, `none` if the run did not
complete normally. -/
def resFeatures : RunRes → Option (List Feat)
  | RunRes.done st => some st.features
  | _ => none

/-- An outcome that ends the retry loop of source lines 157-184: a response
whose status passes the test of line 163. -/
def resolving : Outcome → Bool
  | Outcome.conn_error => false
  | Outcome.resp Status.ok _ => true
  | Outcome.resp Status.zero_results _ => true
  | Outcome.resp Status.over_limit _ => false

/-- A shapefile with a single all-covering polygon: every tile survives the
region filter. -/
def shpAll : List (ℚ → ℚ → Bool) :=
  [fun _ _ => true]

/-- Initial run state: fresh globals, empty output file, no calls made. -/
def st0 : St :=
  { num_queries := 0, box_dimensions := [], features := [], calls := 0, sleeps := [] }

/-- A well-formed raw hit located at (1000, 1000), outside every global box
used in the concrete runs below. -/
def hitFar : RawHit :=
  { location := some (1000, 1000), bounds := none, vicinity := none, name := none
    types := some [], place_id := some ("x") }

/-- A well-formed raw hit located at (5, 5). -/
def hitIn : RawHit :=
  { location := some (5, 5), bounds := none, vicinity := none, name := none
    types := some [], place_id := some ("p") }

/-- A well-formed raw hit located at (50, 50). -/
def hitMid : RawHit :=
  { location := some (50, 50), bounds := none, vicinity := none, name := none
    types := some [], place_id := some ("m") }

/-- A raw hit whose `geometry.location` key is missing. -/
def hitNoLoc : RawHit :=
  { location := none, bounds := none, vicinity := none, name := none
    types := some [], place_id := some ("b") }

/-- Environment of the claim-C4 stub run: the search reports a truncated
success (20 hits, the cap) exactly when the queried tile's edge is at least
10, and a 5-hit success otherwise; global box 0..40 in both coordinates. -/
def envC4 : Env :=
  { oracle := fun _ t =>
      if 10 ≤ t.c2 - t.c0 then Outcome.resp Status.ok (List.replicate 20 hitFar)
      else Outcome.resp Status.ok (List.replicate 5 hitFar)
    divide := divide_bounding_box
    shapefile_tampines := shpAll
    g_min_lat := 0, g_max_lat := 40, g_min_lng := 0, g_max_lng := 40
    seg := fun s => s, today := "d", wait_time := 15 }

/-- The claim-C4 stub run: a 40-by-40 box at initial dimension 40. -/
def runC4 : RunRes :=
  variable_bounding_box envC4 20 40 0 40 0 40 shpAll st0

/-- Completion test of the claim-C4 run: the run finished normally, recorded
at least one final dimension, and every recorded dimension d satisfies
d < 10 and 5/2 ≤ d. -/
def dimsOk : RunRes → Bool
  | RunRes.done st =>
      !st.box_dimensions.isEmpty &&
        st.box_dimensions.all (fun d => decide (d < 10) && decide (5/2 ≤ d))
  | _ => false

/-- Environment of the claim-C1 run: a 40-edge tile is answered with a
truncated success of 20 in-bounds hits; every smaller tile is answered with
`ZERO_RESULTS`. -/
def envC1 : Env :=
  { oracle := fun _ t =>
      if 40 ≤ t.c2 - t.c0 then Outcome.resp Status.ok (List.replicate 20 hitIn)
      else Outcome.resp Status.zero_results []
    divide := divide_bounding_box
    shapefile_tampines := shpAll
    g_min_lat := 0, g_max_lat := 40, g_min_lng := 0, g_max_lng := 40
    seg := fun s => s, today := "d", wait_time := 15 }

/-- The claim-C1 run: one 40-edge tile, truncated, recursed into four
20-edge tiles that all report `ZERO_RESULTS`. -/
def runC1 : RunRes :=
  variable_bounding_box envC1 10 40 0 40 0 40 shpAll st0

/-- Environment of the claim-C3 run: every query is answered with a single
in-global-bounds hit at (50, 50); global box 0..100 in both coordinates. -/
def envC3 : Env :=
  { oracle := fun _ _ => Outcome.resp Status.ok [hitMid]
    divide := divide_bounding_box
    shapefile_tampines := shpAll
    g_min_lat := 0, g_max_lat := 100, g_min_lng := 0, g_max_lng := 100
    seg := fun s => s, today := "d", wait_time := 15 }

/-- The claim-C3 run: a single 10-by-10 tile whose query returns a hit at
(50, 50), far outside the tile but inside the global box. -/
def runC3 : RunRes :=
  variable_bounding_box envC3 5 10 0 10 0 10 shpAll st0

def isKeyError (r : Except Unit (List Feat)) : Bool :=
  match r with
  | Except.error _ => true
  | Except.ok _ => false

/-- Environment whose first call raises a connection error and whose later
calls succeed with an empty result list. -/
def envTransient : Env :=
  { oracle := fun n _ => if n = 0 then Outcome.conn_error else Outcome.resp Status.ok []
    divide := divide_bounding_box
    shapefile_tampines := shpAll
    g_min_lat := 0, g_max_lat := 40, g_min_lng := 0, g_max_lng := 40
    seg := fun s => s, today := "d", wait_time := 15 }

/-- Environment in which every call raises a connection error. -/
def envAllDown : Env :=
  { oracle := fun _ _ => Outcome.conn_error
    divide := divide_bounding_box
    shapefile_tampines := shpAll
    g_min_lat := 0, g_max_lat := 40, g_min_lng := 0, g_max_lng := 40
    seg := fun s => s, today := "d", wait_time := 15 }

/-- The 40-by-40 tile at the origin. -/
def tileW : Tile := ⟨0, 0, 40, 40⟩

/-- Environment whose first call is rate-limited and whose later calls
succeed with a single in-bounds hit. -/
def envRate : Env :=
  { oracle := fun n _ =>
      if n = 0 then Outcome.resp Status.over_limit []
      else Outcome.resp Status.ok [hitIn]
    divide := divide_bounding_box
    shapefile_tampines := shpAll
    g_min_lat := 0, g_max_lat := 40, g_min_lng := 0, g_max_lng := 40
    seg := fun s => s, today := "d", wait_time := 15 }

/-- The feature built from `hitIn`. -/
def featIn : Feat := poiDict (fun s => s) "d" 5 5 hitIn [] ("p")

/-- State after the resolving first call of the claim-C1 run. -/
def stW1 : St :=
  { num_queries := 1, box_dimensions := [], features := [], calls := 1, sleeps := [1] }

/-- State after the four `ZERO_RESULTS` sub-tile queries of the claim-C1
run. -/
def stW2 : St :=
  { num_queries := 5, box_dimensions := [20, 20, 20, 20], features := [], calls := 5
    sleeps := [1, 1, 1, 1, 1] }

theorem retryLoop_not_resolving_step (E : Env) (t : Tile) (fuel : ℕ) (st : St)
    (h : resolving (E.oracle st.calls t) = false) :
    retryLoop E t (fuel + 1) st =
      retryLoop E t fuel
        { st with calls := st.calls + 1, sleeps := st.sleeps ++ [E.wait_time * 60] } := by
  cases ho : E.oracle st.calls t with
  | conn_error => simp [retryLoop, ho]
  | resp s results =>
    cases s with
    | ok => rw [ho] at h; simp [resolving] at h
    | zero_results => rw [ho] at h; simp [resolving] at h
    | over_limit => simp [retryLoop, ho]

theorem retryLoop_resolving_step (E : Env) (t : Tile) (fuel : ℕ) (st : St)
    (s : Status) (results : List RawHit)
    (ho : E.oracle st.calls t = Outcome.resp s results)
    (hs : s = Status.ok ∨ s = Status.zero_results) :
    retryLoop E t (fuel + 1) st =
      some (s, results, { st with calls := st.calls + 1, sleeps := st.sleeps ++ [1] }) := by
  simp [retryLoop, ho, hs]

theorem retryLoop_resolves (E : Env) (t : Tile) (k : ℕ) :
    ∀ (m : ℕ) (st : St) (s : Status) (results : List RawHit),
      (∀ j, j < k → resolving (E.oracle (st.calls + j) t) = false) →
      E.oracle (st.calls + k) t = Outcome.resp s results →
      (s = Status.ok ∨ s = Status.zero_results) →
      retryLoop E t (k + m + 1) st =
        some (s, results,
          { st with calls := st.calls + k + 1,
                    sleeps := st.sleeps ++ List.replicate k (E.wait_time * 60) ++ [1] }) := by
  induction k with
  | zero =>
    intro m st s results _ hres hs
    have h0 : E.oracle st.calls t = Outcome.resp s results := by simpa using hres
    rw [show 0 + m + 1 = m + 1 by omega,
      retryLoop_resolving_step E t m st s results h0 hs]
    simp
  | succ k ih =>
    intro m st s results hk hres hs
    have h0 : resolving (E.oracle (st.calls + 0) t) = false := hk 0 (Nat.succ_pos k)
    rw [show k + 1 + m + 1 = (k + m + 1) + 1 by omega,
      retryLoop_not_resolving_step E t (k + m + 1) st (by simpa using h0)]
    rw [ih m _ s results
      (fun j hj => by
        have := hk (j + 1) (by omega)
        simpa [show st.calls + (j + 1) = st.calls + 1 + j by omega] using this)
      (by simpa [show st.calls + (k + 1) = st.calls + 1 + k by omega] using hres) hs]
    simp [List.replicate_succ, List.append_assoc]
    omega

theorem retryLoop_all_transient (E : Env) (t : Tile) :
    ∀ (fuel : ℕ) (st : St),
      (∀ j, resolving (E.oracle (st.calls + j) t) = false) →
      retryLoop E t fuel st = none := by
  intro fuel
  induction fuel with
  | zero => intro st _; rfl
  | succ fuel ih =>
    intro st h
    rw [retryLoop_not_resolving_step E t fuel st (by simpa using h 0)]
    exact ih _ (fun j => by
      have := h (j + 1)
      simpa [show st.calls + (j + 1) = st.calls + 1 + j by omega] using this)

theorem retryLoop_status (E : Env) (t : Tile) :
    ∀ (fuel : ℕ) (st : St) (s : Status) (results : List RawHit) (st1 : St),
      retryLoop E t fuel st = some (s, results, st1) →
      s = Status.ok ∨ s = Status.zero_results := by
  intro fuel
  induction fuel with
  | zero => intro st s results st1 h; simp [retryLoop] at h
  | succ fuel ih =>
    intro st s results st1 h
    by_cases hres : resolving (E.oracle st.calls t) = true
    · cases ho : E.oracle st.calls t with
      | conn_error => rw [ho] at hres; simp [resolving] at hres
      | resp s2 results2 =>
        have hs2 : s2 = Status.ok ∨ s2 = Status.zero_results := by
          rw [ho] at hres
          cases s2 with
          | ok => exact Or.inl rfl
          | zero_results => exact Or.inr rfl
          | over_limit => simp [resolving] at hres
        rw [retryLoop_resolving_step E t fuel st s2 results2 ho hs2] at h
        simp only [Option.some.injEq, Prod.mk.injEq] at h
        obtain ⟨rfl, -⟩ := h
        exact hs2
    · rw [retryLoop_not_resolving_step E t fuel st (by simpa using hres)] at h
      exact ih _ _ _ _ h

theorem vbbBranch_resolved_not_unexpected (s : Status) (n : ℕ) (d : ℚ)
    (hs : s = Status.ok ∨ s = Status.zero_results) :
    vbbBranch s n d ≠ BranchAct.unexpected := by
  rcases hs with h | h <;> subst h
  · by_cases hn : n < 20
    · simp [vbbBranch, hn]
    · have h20 : 20 ≤ n := by omega
      rcases le_or_lt (5/2 : ℚ) (d / 2) with hd | hd
      · simp [vbbBranch, hn, h20, hd]
      · simp [vbbBranch, hn, h20, hd, not_le.2 hd]
  · simp [vbbBranch]

theorem RunRes.bind_ne_valueError (r : RunRes) (f : St → RunRes)
    (hr : r ≠ RunRes.valueError) (hf : ∀ st, f st ≠ RunRes.valueError) :
    RunRes.bind r f ≠ RunRes.valueError := by
  cases r with
  | done st => exact hf st
  | outOfFuel => simp [RunRes.bind]
  | valueError => exact absurd rfl hr
  | keyError => simp [RunRes.bind]

theorem tileEmit_ne_valueError (E : Env) (status : Status) (results : List RawHit) (st : St) :
    tileEmit E status results st ≠ RunRes.valueError := by
  unfold tileEmit
  split
  · simp
  · split
    · simp
    · split <;> simp

/-- C9: the designed branches for a resolved response are exhaustive.  A
response that ends the retry loop has status `OK` or `ZERO_RESULTS`, and for
such a status the branch dispatch of source lines 167-176 never selects the
final `else`, so a run of the tile processor can never end in the
`ValueError` of line 175 — whatever the oracle, tiles, dimension and fuel. -/
theorem processTiles_value_error_unreachable (E : Env) (shp : List (ℚ → ℚ → Bool)) :
    ∀ (fuel : ℕ) (querybox_dim : ℚ) (tiles : List Tile) (st : St),
      processTiles E shp fuel querybox_dim tiles st ≠ RunRes.valueError := by
  intro fuel
  induction fuel with
  | zero => intro dim tiles st; simp [processTiles]
  | succ fuel ih =>
    intro dim tiles st
    cases tiles with
    | nil => simp [processTiles]
    | cons t ts =>
      simp only [processTiles]
      cases hr : retryLoop E t (fuel + 1) { st with num_queries := st.num_queries + 1 } with
      | none => simp
      | some x =>
        obtain ⟨s, results, st1⟩ := x
        have hs := retryLoop_status E t _ _ _ _ _ hr
        refine RunRes.bind_ne_valueError _ _ ?_ ?_
        · cases hbv : vbbBranch s results.length dim with
          | unexpected =>
            exact absurd hbv (vbbBranch_resolved_not_unexpected s results.length dim hs)
          | record => simp
          | recurse => exact ih _ _ _
        · intro st2
          exact RunRes.bind_ne_valueError _ _ (tileEmit_ne_valueError E s results st2)
            (fun st3 => ih _ _ _)

theorem RunRes.bind_congr (r1 r2 : RunRes) (f1 f2 : St → RunRes)
    (hr : r1 = r2) (hf : ∀ st, f1 st = f2 st) :
    RunRes.bind r1 f1 = RunRes.bind r2 f2 := by
  subst hr
  cases r1 <;> simp [RunRes.bind, hf]

theorem processTiles_shapefile_eq (E : Env) (shp1 shp2 : List (ℚ → ℚ → Bool)) :
    ∀ (fuel : ℕ) (querybox_dim : ℚ) (tiles : List Tile) (st : St),
      processTiles E shp1 fuel querybox_dim tiles st =
        processTiles E shp2 fuel querybox_dim tiles st := by
  intro fuel
  induction fuel with
  | zero => intro dim tiles st; rfl
  | succ fuel ih =>
    intro dim tiles st
    cases tiles with
    | nil => rfl
    | cons t ts =>
      simp only [processTiles]
      cases hr : retryLoop E t (fuel + 1) { st with num_queries := st.num_queries + 1 } with
      | none => rfl
      | some x =>
        obtain ⟨s, results, st1⟩ := x
        refine RunRes.bind_congr _ _ _ _ ?_ ?_
        · cases vbbBranch s results.length dim with
          | record => rfl
          | recurse => exact ih _ _ _
          | unexpected => rfl
        · intro st2
          exact RunRes.bind_congr _ _ _ _ rfl (fun st3 => ih _ _ _)

/-- C10: the `shapefile` parameter of `variable_bounding_box` has no effect
on its behaviour.  Region filtering always uses the global
`shapefile_tampines` (source line 147) and the parameter is only ever
forwarded to recursive calls (line 171), so two runs differing only in the
shapefile argument perform the same queries and produce the same result. -/
theorem variable_bounding_box_shapefile_irrelevant (E : Env) (fuel : ℕ)
    (max_lat min_lat max_lng min_lng querybox_dim : ℚ)
    (shp1 shp2 : List (ℚ → ℚ → Bool)) (st : St) :
    variable_bounding_box E fuel max_lat min_lat max_lng min_lng querybox_dim shp1 st =
      variable_bounding_box E fuel max_lat min_lat max_lng min_lng querybox_dim shp2 st :=
  processTiles_shapefile_eq E shp1 shp2 fuel querybox_dim _ st

theorem remove_duplicate_aux_filter_seen (i : String) :
    ∀ (rs : List Feat) (seen : List String), i ∈ seen →
      (remove_duplicate_aux seen rs).filter (fun r => r.id == i) = [] := by
  intro rs
  induction rs with
  | nil => intro seen _; rfl
  | cons r rs ih =>
    intro seen h
    by_cases hr : r.id ∈ seen
    · rw [remove_duplicate_aux, if_pos hr]
      exact ih seen h
    · have hne : (r.id == i) = false :=
        beq_eq_false_iff_ne.2 (fun he => hr (he ▸ h))
      rw [remove_duplicate_aux, if_neg hr, List.filter_cons_of_neg (by simp [hne])]
      exact ih _ (List.mem_cons_of_mem _ h)

theorem remove_duplicate_aux_filter_len (i : String) :
    ∀ (rs : List Feat) (seen : List String), i ∉ seen →
      ((remove_duplicate_aux seen rs).filter (fun r => r.id == i)).length =
        if rs.filter (fun r => r.id == i) = [] then 0 else 1 := by
  intro rs
  induction rs with
  | nil => intro seen _; simp [remove_duplicate_aux]
  | cons r rs ih =>
    intro seen h
    by_cases hri : r.id = i
    · subst hri
      rw [remove_duplicate_aux, if_neg (fun hc => h hc),
        List.filter_cons_of_pos (by simp),
        List.filter_cons_of_pos (by simp)]
      simp [remove_duplicate_aux_filter_seen r.id rs (r.id :: seen) (List.mem_cons_self _ _)]
    · have hne : (r.id == i) = false := beq_eq_false_iff_ne.2 hri
      by_cases hr : r.id ∈ seen
      · rw [remove_duplicate_aux, if_pos hr, List.filter_cons_of_neg (by simp [hne])]
        exact ih seen h
      · rw [remove_duplicate_aux, if_neg hr, List.filter_cons_of_neg (by simp [hne]),
          List.filter_cons_of_neg (by simp [hne])]
        exact ih (r.id :: seen) (by
          intro hmem
          rcases List.mem_cons.1 hmem with he | hseen
          · exact hri he.symm
          · exact h hseen)

theorem remove_duplicate_aux_find (i : String) :
    ∀ (rs : List Feat) (seen : List String), i ∉ seen →
      (remove_duplicate_aux seen rs).find? (fun r => r.id == i) =
        rs.find? (fun r => r.id == i) := by
  intro rs
  induction rs with
  | nil => intro seen _; rfl
  | cons r rs ih =>
    intro seen h
    by_cases hri : r.id = i
    · subst hri
      rw [remove_duplicate_aux, if_neg (fun hc => h hc),
        List.find?_cons_of_pos _ (by simp), List.find?_cons_of_pos _ (by simp)]
    · have hne : (r.id == i) = false := beq_eq_false_iff_ne.2 hri
      by_cases hr : r.id ∈ seen
      · rw [remove_duplicate_aux, if_pos hr, List.find?_cons_of_neg _ (by simp [hne])]
        exact ih seen h
      · rw [remove_duplicate_aux, if_neg hr, List.find?_cons_of_neg _ (by simp [hne]),
          List.find?_cons_of_neg _ (by simp [hne])]
        exact ih (r.id :: seen) (by
          intro hmem
          rcases List.mem_cons.1 hmem with he | hseen
          · exact hri he.symm
          · exact h hseen)

/-- C7: `dedupe` returns exactly one record per distinct id — the filter on
any id present in the input has length one, absent ids zero — and for each
id the retained record is the first occurrence of that id in the input
(`find?` commutes with the deduplication). -/
theorem remove_duplicate_one_per_id (recs : List Feat) (i : String) :
    (((remove_duplicate recs).filter (fun r => r.id == i)).length =
        if recs.filter (fun r => r.id == i) = [] then 0 else 1) ∧
      (remove_duplicate recs).find? (fun r => r.id == i) = recs.find? (fun r => r.id == i) :=
  ⟨remove_duplicate_aux_filter_len i recs [] (by simp),
   remove_duplicate_aux_find i recs [] (by simp)⟩

/-- C8: `extract_poi` raises its configuration `ValueError` — before issuing
any query — exactly when neither a complete bounding box (all four edges)
nor a complete (lat, lng) centre pair is supplied; with a complete box or a
complete centre pair no such error is raised and the query triple is
produced. -/
theorem extract_poi_error_iff_incomplete (max_lat max_lng min_lat min_lng lat lng : Option ℚ)
    (l h : ℚ) (tc : ℚ → ℚ → ℚ → ℚ → ℚ × ℚ × ℚ × ℚ) (ic : ℚ → ℚ → ℚ → ℚ → ℚ × ℚ)
    (ccr : ℚ → ℚ → ℚ → ℚ → ℚ) :
    extract_poi max_lat max_lng min_lat min_lng lat lng l h tc ic ccr = Except.error () ↔
      ¬ (max_lat.isSome = true ∧ max_lng.isSome = true ∧ min_lat.isSome = true ∧
          min_lng.isSome = true) ∧
        ¬ (lat.isSome = true ∧ lng.isSome = true) := by
  cases max_lat <;> cases max_lng <;> cases min_lat <;> cases min_lng <;>
    cases lat <;> cases lng <;> simp [extract_poi]

/-- C2 counterexample: a batch holding one well-formed hit and one hit whose
location key is missing.  The claim says the malformed hit is dropped
individually and `format_query_result` still returns records for the
well-formed hits; in fact the whole batch fails (the `KeyError` of the
missing location aborts the loop), while the well-formed hit alone would
have succeeded. -/
theorem malformed_hit_aborts_batch_cex :
    isKeyError (format_query_result 0 100 0 100 (fun s => s) "d" [hitMid, hitNoLoc]) = true ∧
      isKeyError (format_query_result 0 100 0 100 (fun s => s) "d" [hitMid]) = false := by
  with_unfolding_all decide

/-- C2 amended: a batch in which every hit carries the required fields
(location, types, place_id) is formatted without failure; but a single hit
missing its location makes `format_query_result` fail for the whole batch —
no record of any hit of that batch is returned. -/
theorem format_query_result_required_fields (min_lat max_lat min_lng max_lng : ℚ)
    (seg : String → String) (today : String) :
    (∀ hits : List RawHit, (∀ h ∈ hits, requiredFieldsPresent h = true) →
        ∃ recs, format_query_result min_lat max_lat min_lng max_lng seg today hits =
          Except.ok recs) ∧
    (∀ (pre post : List RawHit) (bad : RawHit),
        (∀ h ∈ pre, requiredFieldsPresent h = true) → bad.location = none →
        format_query_result min_lat max_lat min_lng max_lng seg today (pre ++ bad :: post) =
          Except.error ()) := by
  constructor
  · intro hits
    induction hits with
    | nil => intro _; exact ⟨[], rfl⟩
    | cons h hs ih =>
      intro hall
      have hh := hall h (List.mem_cons_self _ _)
      rw [requiredFieldsPresent, Bool.and_eq_true, Bool.and_eq_true] at hh
      obtain ⟨⟨h1, h2⟩, h3⟩ := hh
      obtain ⟨ll, hl⟩ := Option.isSome_iff_exists.1 h1
      obtain ⟨ts, hts⟩ := Option.isSome_iff_exists.1 h2
      obtain ⟨pid, hpid⟩ := Option.isSome_iff_exists.1 h3
      obtain ⟨recs, hrecs⟩ := ih (fun x hx => hall x (List.mem_cons_of_mem _ hx))
      by_cases hw : within_boundary_area ll.1 ll.2 min_lat max_lat min_lng max_lng = true
      · exact ⟨poiDict seg today ll.1 ll.2 h ts pid :: recs, by
          simp only [format_query_result, hl, hts, hpid, hw, if_true]
          rw [hrecs]
          rfl⟩
      · exact ⟨recs, by
          simp only [format_query_result, hl, hts, hpid]
          rw [if_neg hw]
          exact hrecs⟩
  · intro pre post bad
    induction pre with
    | nil =>
      intro _ hbad
      simp only [List.nil_append, format_query_result, hbad]
    | cons h hs ih =>
      intro hpre hbad
      have hh := hpre h (List.mem_cons_self _ _)
      rw [requiredFieldsPresent, Bool.and_eq_true, Bool.and_eq_true] at hh
      obtain ⟨⟨h1, h2⟩, h3⟩ := hh
      obtain ⟨ll, hl⟩ := Option.isSome_iff_exists.1 h1
      obtain ⟨ts, hts⟩ := Option.isSome_iff_exists.1 h2
      obtain ⟨pid, hpid⟩ := Option.isSome_iff_exists.1 h3
      have ihh := ih (fun x hx => hpre x (List.mem_cons_of_mem _ hx)) hbad
      by_cases hw : within_boundary_area ll.1 ll.2 min_lat max_lat min_lng max_lng = true
      · simp only [List.cons_append, format_query_result, hl, hts, hpid, hw, if_true,
          List.append_eq]
        rw [ihh]
        rfl
      · simp only [List.cons_append, format_query_result, hl, hts, hpid, List.append_eq]
        rw [if_neg hw]
        exact ihh

theorem format_query_result_required_fields_witness :
    (∃ recs, format_query_result 0 100 0 100 (fun s => s) "d" [hitMid] = Except.ok recs) ∧
      format_query_result 0 100 0 100 (fun s => s) "d" ([hitMid] ++ hitNoLoc :: []) =
        Except.error () :=
  ⟨(format_query_result_required_fields 0 100 0 100 (fun s => s) "d").1 [hitMid]
      (by
        intro h hh
        rw [List.mem_singleton] at hh
        subst hh
        rfl),
   (format_query_result_required_fields 0 100 0 100 (fun s => s) "d").2 [hitMid] [] hitNoLoc
      (by
        intro h hh
        rw [List.mem_singleton] at hh
        subst hh
        rfl)
      rfl⟩

set_option maxRecDepth 8000 in
/-- C3 counterexample: the tile queried is the 10-by-10 box at the origin and
the response holds a single hit at (50, 50) — outside that tile, inside the
global 100-by-100 box.  The claim says such a hit is discarded before a POI
record is built; in fact the run keeps it: the output file ends with one
record. -/
theorem hit_outside_tile_kept_cex :
    within_boundary_area 50 50 0 10 0 10 = false ∧
      (resFeatures runC3).map List.length = some 1 ∧
      resDims runC3 = some [10] := by
  with_unfolding_all decide

/-- C3 amended: hits are tested against the module-level global bounding box
(the globals read at source line 84), not against the tile that produced the
query: a well-formed hit is kept iff its location lies in the global box,
whatever the tile was. -/
theorem format_query_result_filters_by_global_box (min_lat max_lat min_lng max_lng : ℚ)
    (seg : String → String) (today : String) (h : RawHit) (lat lng : ℚ)
    (ts : List String) (pid : String)
    (hl : h.location = some (lat, lng)) (hts : h.types = some ts)
    (hpid : h.place_id = some pid) :
    format_query_result min_lat max_lat min_lng max_lng seg today [h] =
      if within_boundary_area lat lng min_lat max_lat min_lng max_lng then
        Except.ok [poiDict seg today lat lng h ts pid]
      else Except.ok [] := by
  simp only [format_query_result, hl, hts, hpid]
  by_cases hw : within_boundary_area lat lng min_lat max_lat min_lng max_lng = true
  · rw [if_pos hw, if_pos hw]
    rfl
  · rw [if_neg hw, if_neg hw]

theorem format_query_result_filters_by_global_box_witness :
    format_query_result 0 100 0 100 (fun s => s) "d" [hitMid] =
      if within_boundary_area 50 50 0 100 0 100 then
        Except.ok [poiDict (fun s => s) "d" 50 50 hitMid [] "m"]
      else Except.ok [] :=
  format_query_result_filters_by_global_box 0 100 0 100 (fun s => s) "d" hitMid 50 50 [] "m"
    rfl rfl rfl

/-- C5: a tile whose search call raises a transient connection error is
retried indefinitely: if the first k calls for the tile fail transiently and
the next one resolves, the retry loop returns that resolving response, with
exactly one backoff sleep of `wait_time * 60` seconds before each re-attempt
(and the one-second pacing sleep after the resolving call); and if every
call fails transiently, the loop never terminates — for every fuel it is
still retrying, so the tile is never abandoned and the error never
escalated. -/
theorem transient_error_retried_with_backoff :
    (∀ (E : Env) (t : Tile) (k m : ℕ) (st : St) (s : Status) (results : List RawHit),
        (∀ j, j < k → E.oracle (st.calls + j) t = Outcome.conn_error) →
        E.oracle (st.calls + k) t = Outcome.resp s results →
        (s = Status.ok ∨ s = Status.zero_results) →
        retryLoop E t (k + m + 1) st =
          some (s, results,
            { st with calls := st.calls + k + 1,
                      sleeps := st.sleeps ++ List.replicate k (E.wait_time * 60) ++ [1] })) ∧
    (∀ (E : Env) (t : Tile) (st : St),
        (∀ j, E.oracle (st.calls + j) t = Outcome.conn_error) →
        ∀ fuel, retryLoop E t fuel st = none) := by
  constructor
  · intro E t k m st s results hk hres hs
    exact retryLoop_resolves E t k m st s results
      (fun j hj => by rw [hk j hj]; rfl) hres hs
  · intro E t st hall fuel
    exact retryLoop_all_transient E t fuel st (fun j => by rw [hall j]; rfl)

theorem transient_error_retried_with_backoff_witness :
    retryLoop envTransient tileW (1 + 1 + 1) st0 =
      some (Status.ok, [],
        { st0 with calls := st0.calls + 1 + 1,
                   sleeps := st0.sleeps ++
                     List.replicate 1 (envTransient.wait_time * 60) ++ [1] }) ∧
      retryLoop envAllDown tileW 7 st0 = none :=
  ⟨transient_error_retried_with_backoff.1 envTransient tileW 1 1 st0 Status.ok []
      (fun j hj => by
        have hj0 : j = 0 := by omega
        subst hj0
        rfl)
      rfl (Or.inl rfl),
   transient_error_retried_with_backoff.2 envAllDown tileW st0 (fun _ => rfl) 7⟩

/-- C6: a tile that is rate-limited k times and then succeeds (below the
cap, non-empty) emits its records exactly once, from the resolving call: the
final output file is the starting one extended by exactly the formatted
records of the resolving response, and the failed attempts contribute
nothing but their backoff sleeps. -/
theorem rate_limited_then_success_emits_once (E : Env) (shp : List (ℚ → ℚ → Bool))
    (t : Tile) (k m : ℕ) (st : St) (querybox_dim : ℚ) (results : List RawHit)
    (recs : List Feat) (bad : ℕ → List RawHit)
    (hk : ∀ j, j < k → E.oracle (st.calls + j) t = Outcome.resp Status.over_limit (bad j))
    (hres : E.oracle (st.calls + k) t = Outcome.resp Status.ok results)
    (hlen : results.length < 20)
    (hne : results ≠ [])
    (hfmt : format_query_result E.g_min_lat E.g_max_lat E.g_min_lng E.g_max_lng
        E.seg E.today results = Except.ok recs) :
    processTiles E shp (k + m + 2) querybox_dim [t] st =
      RunRes.done
        { st with num_queries := st.num_queries + 1,
                  calls := st.calls + k + 1,
                  sleeps := st.sleeps ++ List.replicate k (E.wait_time * 60) ++ [1],
                  box_dimensions := st.box_dimensions ++ [querybox_dim],
                  features := st.features ++ recs } := by
  have hloop : retryLoop E t (k + m + 1 + 1) { st with num_queries := st.num_queries + 1 } =
      some (Status.ok, results,
        { st with num_queries := st.num_queries + 1,
                  calls := st.calls + k + 1,
                  sleeps := st.sleeps ++ List.replicate k (E.wait_time * 60) ++ [1] }) := by
    have := retryLoop_resolves E t k (m + 1) { st with num_queries := st.num_queries + 1 }
      Status.ok results
      (fun j hj => by
        show resolving (E.oracle (st.calls + j) t) = false
        rw [hk j hj]
        rfl)
      (by
        show E.oracle (st.calls + k) t = Outcome.resp Status.ok results
        exact hres)
      (Or.inl rfl)
    rwa [show k + (m + 1) + 1 = k + m + 1 + 1 by omega] at this
  have hnlt : ¬ (20 ≤ results.length) := by omega
  have hb : vbbBranch Status.ok results.length querybox_dim = BranchAct.record := by
    simp [vbbBranch, hlen]
  have hie : results.isEmpty = false := by
    cases results with
    | nil => exact absurd rfl hne
    | cons a l => rfl
  rw [show k + m + 2 = (k + m + 1) + 1 by omega]
  simp only [processTiles, hloop, hb]
  simp only [RunRes.bind, tileEmit, hie, hfmt]
  show processTiles E shp (k + m + 1) querybox_dim [] _ = _
  rfl

theorem rate_limited_then_success_emits_once_witness :
    processTiles envRate shpAll (1 + 0 + 2) 40 [tileW] st0 =
      RunRes.done
        { st0 with num_queries := st0.num_queries + 1,
                   calls := st0.calls + 1 + 1,
                   sleeps := st0.sleeps ++ List.replicate 1 (envRate.wait_time * 60) ++ [1],
                   box_dimensions := st0.box_dimensions ++ [40],
                   features := st0.features ++ [featIn] } :=
  rate_limited_then_success_emits_once envRate shpAll tileW 1 0 st0 40 [hitIn] [featIn]
    (fun _ => [])
    (fun j hj => by
      have hj0 : j = 0 := by omega
      subst hj0
      rfl)
    rfl
    (by decide)
    (by decide)
    (by with_unfolding_all decide)

/-- C1 amended: for a tile whose resolved search outcome is truncated (at
least 20 results) with the halved dimension still at or above the 2.5 floor,
the procedure recurses on the tile at half the dimension and does not record
the current dimension as final — but it does not discard the truncated
call's partial results: after the recursion returns, the formatted records
of the truncated response are appended to the output file (to be compacted
later by the deduplication pass). -/
theorem truncated_tile_recurses_and_appends (E : Env) (shp : List (ℚ → ℚ → Bool))
    (fuel : ℕ) (querybox_dim : ℚ) (t : Tile) (ts : List Tile) (st st1 st2 : St)
    (results : List RawHit) (recs : List Feat)
    (hloop : retryLoop E t (fuel + 1) { st with num_queries := st.num_queries + 1 } =
      some (Status.ok, results, st1))
    (hlen : 20 ≤ results.length)
    (hdim : 5/2 ≤ querybox_dim / 2)
    (hrec : processTiles E shp fuel (querybox_dim / 2)
        (pixelise_region (E.divide t.c2 t.c0 t.c3 t.c1 (querybox_dim / 2))
          E.shapefile_tampines) st1 = RunRes.done st2)
    (hfmt : format_query_result E.g_min_lat E.g_max_lat E.g_min_lng E.g_max_lng
        E.seg E.today results = Except.ok recs) :
    processTiles E shp (fuel + 1) querybox_dim (t :: ts) st =
      processTiles E shp fuel querybox_dim ts
        { st2 with features := st2.features ++ recs } := by
  have hnlt : ¬ (results.length < 20) := by omega
  have hb : vbbBranch Status.ok results.length querybox_dim = BranchAct.recurse := by
    simp [vbbBranch, hnlt, hlen, hdim]
  have hie : results.isEmpty = false := by
    cases results with
    | nil => simp at hlen
    | cons a l => rfl
  simp only [processTiles, hloop, hb, hrec]
  simp only [RunRes.bind, tileEmit, hie, hfmt]
  rfl

set_option maxRecDepth 8000 in
theorem truncated_tile_recurses_and_appends_witness :
    processTiles envC1 shpAll (5 + 1) 40 [tileW] st0 =
      processTiles envC1 shpAll 5 40 []
        { stW2 with features := stW2.features ++ List.replicate 20 featIn } :=
  truncated_tile_recurses_and_appends envC1 shpAll 5 40 tileW [] st0 stW1 stW2
    (List.replicate 20 hitIn) (List.replicate 20 featIn)
    (by with_unfolding_all decide)
    (by decide)
    (by with_unfolding_all decide)
    (by with_unfolding_all decide)
    (by with_unfolding_all decide)

set_option maxRecDepth 8000 in
/-- C1 counterexample: in the claim-C1 run the only truncated call is the
top 40-edge tile and every finer query returns `ZERO_RESULTS`, yet the final
output file holds the 20 records of that truncated call — the recursion
happened (four final dimensions 20 recorded, none 40), but the truncated
call's partial results were emitted, not discarded. -/
theorem truncated_tile_records_emitted_cex :
    resFeatures runC1 = some (List.replicate 20 featIn) ∧
      resDims runC1 = some [20, 20, 20, 20] := by
  with_unfolding_all decide

set_option maxRecDepth 100000 in
/-- C4: with the stub search client that reports a truncated result exactly
for tile edges of at least 10 and a plain success otherwise, the subdivision
of a 40-by-40 box at initial dimension 40 (floor 2.5) terminates normally,
records at least one final dimension, and every recorded final dimension d
satisfies d < 10 and 5/2 ≤ d. -/
theorem stub_subdivision_terminates_with_bounded_dims : dimsOk runC4 = true := by
  with_unfolding_all decide
